import Mathlib

/-!
Verification of the lanthing-pc streaming engine specification against the
repository sources.  Each section embeds one component of the code base as
executable Lean definitions and proves the specified properties about them.
-/

set_option maxHeartbeats 1000000

namespace Lanthing

/-! ## Nvidia D3D11 encoder: data model

Shallow embedding of the state stored by `NvD3d11EncoderImpl`
(`src/lanthing/src/graphics/encoder/nvidia_encoder.cpp`).  Machine integers of
the source (`uint32_t` fields of the NVENC parameter structs) are represented
as `Nat`; none of the operations below can overflow a `uint32_t` range check
that the claims depend on. -/

/-- `lt::VideoCodecType` as used by the encoder (`H264`/`H265`). -/
inductive VideoCodecType where
  | H264
  | H265
deriving DecidableEq

/-- `NV_ENC_BUFFER_FORMAT` values mentioned by `nvidia_encoder.cpp`. -/
inductive NvBufferFormat where
  | NV12
  | ARGB
  | YUV444
  | YUV420_10BIT
  | YUV444_10BIT
deriving DecidableEq

/-- `NV_ENC_QP`: per-picture-type QP triple `{qpInterP, qpInterB, qpIntra}`. -/
structure NvEncQP where
  qpInterP : Nat
  qpInterB : Nat
  qpIntra : Nat
deriving DecidableEq

/-- The fields of `NV_ENC_RC_PARAMS` that `nvidia_encoder.cpp` reads or
writes (`generateEncodeParams` and `reconfigure`). -/
structure NvRcParams where
  rateControlMode : Nat
  averageBitRate : Nat
  maxBitRate : Nat
  minQP : NvEncQP
  enableMinQP : Bool
  maxQP : NvEncQP
  enableMaxQP : Bool
  vbvBufferSize : Nat
  vbvInitialDelay : Nat
  constQP : NvEncQP
deriving DecidableEq

/-- The fields of `NV_ENC_CONFIG` that `nvidia_encoder.cpp` touches. -/
structure NvEncConfig where
  rcParams : NvRcParams
  gopLength : Nat
  frameIntervalP : Nat
deriving DecidableEq

/-- The fields of `NV_ENC_INITIALIZE_PARAMS` that `nvidia_encoder.cpp`
touches (`generateEncodeParams` fills them, `reconfigure` updates
`frameRateNum`). -/
structure NvInitParams where
  encodeWidth : Nat
  encodeHeight : Nat
  darWidth : Nat
  darHeight : Nat
  maxEncodeWidth : Nat
  maxEncodeHeight : Nat
  frameRateNum : Nat
  frameRateDen : Nat
  enablePTD : Bool
  enableEncodeAsync : Bool
deriving DecidableEq

/-- The mutable state of a live `NvD3d11EncoderImpl`: the stored initialize
and encode configuration, the geometry members, and the NVENC session handle
`nvencoder_` (represented by an abstract identifier: `reconfigure` must not
recreate it). -/
structure EncoderState where
  width_ : Nat
  height_ : Nat
  codec_type_ : VideoCodecType
  buffer_format_ : NvBufferFormat
  init_params_ : NvInitParams
  encode_config_ : NvEncConfig
  nvencoder_ : Nat
deriving DecidableEq

/-- `VideoEncoder::ReconfigureParams` as consumed by
`NvD3d11EncoderImpl::reconfigure` (nvidia_encoder.cpp:259-280): an optional
new bitrate and an optional new fps.  The declaration itself lives in
`video_encoder.h`, which is not under `src/`; the two fields are exactly the
ones the in-repository implementation reads, and the spec lists
bitrate/fps as the runtime-adjustable knobs. -/
structure ReconfigureParams where
  bitrate_bps : Option Nat
  fps : Option Nat
deriving DecidableEq

/-- Shallow embedding of `NvD3d11EncoderImpl::reconfigure`
(nvidia_encoder.cpp:259-280).  `mulMax` stands for the float computation
`static_cast<uint32_t>(params.bitrate_bps.value() * 1.05f)`; its exact value
is immaterial to every claim below, so it is an explicit parameter of the
embedding.  The result pairs the updated stored state with a flag recording
whether `nvEncReconfigureEncoder` was invoked; the C++ function returns
`void` and only logs a failing status of that call. -/
def reconfigure (mulMax : Nat → Nat) (params : ReconfigureParams) (st : EncoderState) :
    EncoderState × Bool :=
  let st1 :=
    match params.bitrate_bps with
    | some b =>
        { st with
            encode_config_ :=
              { st.encode_config_ with
                  rcParams :=
                    { st.encode_config_.rcParams with
                        averageBitRate := b
                        maxBitRate := mulMax b } } }
    | none => st
  let changed1 : Bool := params.bitrate_bps.isSome
  let st2 :=
    match params.fps with
    | some f => { st1 with init_params_ := { st1.init_params_ with frameRateNum := f } }
    | none => st1
  let changed2 : Bool := changed1 || params.fps.isSome
  if changed2 then (st2, true) else (st, false)

/-- Rendering of the claim that `reconfigure` updates the stored QP bounds:
some reconfigure request changes the stored `minQP` or `maxQP`. -/
def reconfigureUpdatesQP : Prop :=
  ∃ mulMax params st,
    (reconfigure mulMax params st).1.encode_config_.rcParams.minQP ≠
        st.encode_config_.rcParams.minQP ∨
      (reconfigure mulMax params st).1.encode_config_.rcParams.maxQP ≠
        st.encode_config_.rcParams.maxQP

/-! ## Versioned Reconfigure dispatch (pipeline level) -/

/-- Modelled from the spec: the pipeline-level handler of **Reconfigure**
messages (the worker/pipeline dispatch code is not under `src/`; only the
encoder-level `reconfigure` it forwards to is).  Per the spec, "every field
change is versioned so stale reconfigurations arriving out of order are
ignored (monotonic version counter)".  A Reconfigure message carries the
version counter and the parameters handed to the encoder. -/
structure ReconfigureMsg where
  version : Nat
  params : ReconfigureParams
deriving DecidableEq

/-- Modelled from the spec: pipeline state tracking the version of the last
applied reconfiguration next to the live encoder state. -/
structure PipelineState where
  lastVersion : Nat
  enc : EncoderState
deriving DecidableEq

/-- Modelled from the spec: delivery of one Reconfigure message to the
pipeline.  A message whose version counter is lower than the last applied
version is ignored; otherwise the parameters are applied to the live encoder
via `reconfigure` and the version counter is recorded. -/
def applyReconfigureMsg (mulMax : Nat → Nat) (st : PipelineState) (m : ReconfigureMsg) :
    PipelineState :=
  if m.version < st.lastVersion then st
  else { lastVersion := m.version, enc := (reconfigure mulMax m.params st.enc).1 }

/-- Delivery of a whole sequence of Reconfigure messages, in arrival order. -/
def runReconfigureMsgs (mulMax : Nat → Nat) (st : PipelineState) (msgs : List ReconfigureMsg) :
    PipelineState :=
  msgs.foldl (applyReconfigureMsg mulMax) st

/-! ## Session coordinator: `stop()` and status callbacks -/

/-- The session states named by the spec (§4.1). -/
inductive SessionState where
  | Idle
  | SignalingConnecting
  | SignalingConnected
  | AwaitingJoinAck
  | RoomJoined
  | TransportConnecting
  | Streaming
  | Reconnecting
  | Closed
  | Failed
deriving DecidableEq

/-- Modelled from the spec: the session owned by the SessionCoordinator
(`client.cpp` / the coordinator implementation is not under `src/`; only the
declarations in `client.h` are).  It tracks the current state and whether the
pipelines and the TransportChannel are still held. -/
structure Session where
  state : SessionState
  pipelinesAlive : Bool
  transportAlive : Bool
deriving DecidableEq

/-- Modelled from the spec: `stop()` "always transitions to `Closed`,
releasing pipelines and TransportChannel deterministically regardless of
current state". -/
def stop (_s : Session) : Session :=
  { state := SessionState.Closed, pipelinesAlive := false, transportAlive := false }

/-- Events the coordinator reacts to while a session exists. -/
inductive SessionEvent where
  | transportConnected
  | transportLost
  | fatalError
  | stopRequested
deriving DecidableEq

/-- Modelled from the spec: one coordinator step.  The spec requires that a
status callback is emitted to the UI layer on every state transition, and
that after `stop()` marked the session `Closed` "no further callbacks fire
into the excluded UI layer"; accordingly a closed session ignores every event
and emits nothing.  The returned list is the status callbacks emitted by the
step. -/
def sessionStep (s : Session) (e : SessionEvent) : Session × List SessionState :=
  if s.state = SessionState.Closed then (s, [])
  else
    match e with
    | SessionEvent.transportConnected =>
        ({ s with state := SessionState.Streaming }, [SessionState.Streaming])
    | SessionEvent.transportLost =>
        ({ s with state := SessionState.Reconnecting }, [SessionState.Reconnecting])
    | SessionEvent.fatalError =>
        ({ s with state := SessionState.Failed }, [SessionState.Failed])
    | SessionEvent.stopRequested => (stop s, [])

/-! ## ServiceManager: surfacing the service status to the UI -/

/-- `ltproto::ErrorCode` as compared by `ServiceManager::onServiceStatus`:
either the distinguished `Success` code or some other error code. -/
inductive LtErrorCode where
  | Success
  | other (code : Nat)
deriving DecidableEq

/-- `ServiceManager::ServiceStatus`, the status values handed to the UI
callback (`Down` is emitted by `onPipeDisconnected`). -/
inductive ServiceStatus where
  | Up
  | Down
deriving DecidableEq

/-- Shallow embedding of `ServiceManager::onServiceStatus`
(service_manager.cpp:132-140).  The returned list is the sequence of UI
status callbacks the handler emits for one incoming ServiceStatus message.
Both branches of the source's if/else pass `ServiceStatus::Up` to the
callback. -/
def onServiceStatus (status : LtErrorCode) : List ServiceStatus :=
  if status = LtErrorCode.Success then [ServiceStatus.Up] else [ServiceStatus.Up]

/-- Shallow embedding of `ServiceManager::onPipeDisconnected`
(service_manager.cpp:82-86): emits a single `Down` status callback. -/
def onPipeDisconnected : List ServiceStatus :=
  [ServiceStatus.Down]

/-! ## Nvidia encoder: `init` (session setup) -/

/-- The behaviour of the external `nvEncodeAPI` library and driver as
observed by `NvD3d11EncoderImpl::init`, `loadNvApi` and `initBuffers`
(nvidia_encoder.cpp:190-239, 342-385, 465-473).  A status value of `0`
stands for `NV_ENC_SUCCESS`. -/
structure NvInitEnv where
  lib_loaded : Bool
  has_get_max_version : Bool
  get_max_version_status : Nat
  machine_version : Nat
  has_create_instance : Bool
  create_instance_status : Nat
  has_open_session_fn : Bool
  open_session_status : Nat
  initialize_status : Nat
  create_bitstream_status : Nat
deriving DecidableEq

/-- Shallow embedding of `NvD3d11EncoderImpl::loadNvApi`
(nvidia_encoder.cpp:342-385).  `sdk_version` is the compile-time constant
`(NVENCAPI_MAJOR_VERSION << 4) | NVENCAPI_MINOR_VERSION` from the
third-party header. -/
def loadNvApi (sdk_version : Nat) (env : NvInitEnv) : Bool :=
  if !env.lib_loaded then false
  else if !env.has_get_max_version then false
  else if env.get_max_version_status ≠ 0 then false
  else if env.machine_version < sdk_version then false
  else if !env.has_create_instance then false
  else if env.create_instance_status ≠ 0 then false
  else true

/-- Shallow embedding of `NvD3d11EncoderImpl::initBuffers`
(nvidia_encoder.cpp:465-473): a failing `nvEncCreateBitstreamBuffer` status
is logged but not propagated, and the function returns `true`
unconditionally. -/
def initBuffers (_env : NvInitEnv) : Bool :=
  true

/-- Outcome of `NvD3d11EncoderImpl::init`: its boolean return value and
whether `nvEncOpenEncodeSessionEx` succeeded (i.e. an encode session was
opened). -/
structure InitOutcome where
  ok : Bool
  session_opened : Bool
deriving DecidableEq

/-- Shallow embedding of `NvD3d11EncoderImpl::init`
(nvidia_encoder.cpp:190-239).  `generateEncodeParams` only fills the stored
configuration (the ignored status of `nvEncGetEncodePresetConfig` aside) and
cannot fail, so it does not appear in the control flow. -/
def init (sdk_version : Nat) (env : NvInitEnv) (codec : VideoCodecType)
    (buffer_format : NvBufferFormat) : InitOutcome :=
  if codec = VideoCodecType.H264 ∧
      (buffer_format = NvBufferFormat.YUV420_10BIT ∨
        buffer_format = NvBufferFormat.YUV444_10BIT) then
    { ok := false, session_opened := false }
  else if !(loadNvApi sdk_version env) then { ok := false, session_opened := false }
  else if !env.has_open_session_fn then { ok := false, session_opened := false }
  else if env.open_session_status ≠ 0 then { ok := false, session_opened := false }
  else if env.initialize_status ≠ 0 then { ok := false, session_opened := true }
  else { ok := initBuffers env, session_opened := true }

/-- Whether some call into the encoder API during setup reported a failing
status in the given environment (the steps `init` performs:
`NvEncodeAPIGetMaxSupportedVersion`, `NvEncodeAPICreateInstance`,
`nvEncOpenEncodeSessionEx`, `nvEncInitializeEncoder`,
`nvEncCreateBitstreamBuffer`). -/
def anyEncoderApiStepFailed (env : NvInitEnv) : Bool :=
  (env.get_max_version_status ≠ 0) || (env.create_instance_status ≠ 0) ||
    (env.open_session_status ≠ 0) || (env.initialize_status ≠ 0) ||
    (env.create_bitstream_status ≠ 0)

/-! ## Nvidia encoder: `encodeOneFrame` / `encodeFrame` -/

/-- `NV_ENC_PIC_TYPE` as reported by `nvEncGetEncodeStats`. -/
inductive NvPicType where
  | P
  | B
  | I
  | IDR
  | BI
  | Skipped
  | IntraRefresh
  | NonRefP
  | Unknown
deriving DecidableEq

/-- The `encodePicFlags` bits `nvidia_encoder.cpp` sets:
`NV_ENC_PIC_FLAG_FORCEIDR` and `NV_ENC_PIC_FLAG_OUTPUT_SPSPPS`. -/
structure NvPicFlags where
  forceIDR : Bool
  outputSPSPPS : Bool
deriving DecidableEq

/-- The fields of `NV_ENC_PIC_PARAMS` relevant to the claims: the picture
flags and the input geometry submitted with the frame. -/
structure NvPicParams where
  encodePicFlags : NvPicFlags
  inputWidth : Nat
  inputHeight : Nat
deriving DecidableEq

/-- `ltproto::client2worker::VideoFrame` as filled by `encodeOneFrame`:
payload bytes and the keyframe flag. -/
structure VideoFrame where
  frame : List Nat
  is_keyframe : Bool
deriving DecidableEq

/-- Behaviour of the external NVENC API calls made while encoding one frame
(statuses, the locked bitstream bytes, and the picture type reported by
`nvEncGetEncodeStats`).  Status `0` stands for `NV_ENC_SUCCESS`. -/
structure EncodeEnv where
  register_status : Nat
  map_status : Nat
  encode_status : Nat
  lock_status : Nat
  bitstream : List Nat
  unlock_status : Nat
  unmap_status : Nat
  unregister_status : Nat
  pic_type : NvPicType
deriving DecidableEq

/-- Outcome of `encodeOneFrame`: the `NV_ENC_PIC_PARAMS` submitted via
`nvEncEncodePicture` (if the input frame was mapped) and the returned
`VideoFrame` (`none` for the C++ `nullptr`). -/
structure EncodeOutcome where
  submitted : Option NvPicParams
  result : Option VideoFrame
deriving DecidableEq

/-- Shallow embedding of `NvD3d11EncoderImpl::encodeOneFrame`
(nvidia_encoder.cpp:282-340), with `initInputFrame` (475-497) and
`uninitInputFrame` (499-514) inlined as their status checks.  The session is
synchronous (`async_ = false`), so the event wait is absent. -/
def encodeOneFrame (env : EncodeEnv) (st : EncoderState) (request_iframe : Bool) :
    EncodeOutcome :=
  if env.register_status ≠ 0 then { submitted := none, result := none }
  else if env.map_status ≠ 0 then { submitted := none, result := none }
  else
    let flags : NvPicFlags :=
      if request_iframe then { forceIDR := true, outputSPSPPS := true }
      else { forceIDR := false, outputSPSPPS := false }
    let p : NvPicParams :=
      { encodePicFlags := flags, inputWidth := st.width_, inputHeight := st.height_ }
    if env.encode_status ≠ 0 then { submitted := some p, result := none }
    else if env.lock_status ≠ 0 then { submitted := some p, result := none }
    else if env.unlock_status ≠ 0 then { submitted := some p, result := none }
    else if env.unmap_status ≠ 0 then { submitted := some p, result := none }
    else if env.unregister_status ≠ 0 then { submitted := some p, result := none }
    else
      { submitted := some p
        result := some
          { frame := env.bitstream
            is_keyframe :=
              decide (env.pic_type = NvPicType.I ∨ env.pic_type = NvPicType.IDR) } }

/-- Modelled from the spec: the `VideoEncoder` base class (`video_encoder.h`
is not under `src/`) keeps a pending-keyframe flag; `requestKeyframe()`
"forces the next frame to be a keyframe", and `NvD3d11Encoder::encodeFrame`
consumes it through `needKeyframe()`. -/
structure VideoEncoderBase where
  request_keyframe_ : Bool
deriving DecidableEq

/-- Modelled from the spec: `requestKeyframe()` raises the pending-keyframe
flag. -/
def requestKeyframe (_e : VideoEncoderBase) : VideoEncoderBase :=
  { request_keyframe_ := true }

/-- Modelled from the spec: `needKeyframe()` reads and consumes the
pending-keyframe flag. -/
def needKeyframe (e : VideoEncoderBase) : Bool × VideoEncoderBase :=
  (e.request_keyframe_, { request_keyframe_ := false })

/-- Shallow embedding of `NvD3d11Encoder::encodeFrame`
(nvidia_encoder.cpp:530-532): forwards the captured frame to
`encodeOneFrame` with `needKeyframe()` as the keyframe request. -/
def encodeFrame (env : EncodeEnv) (st : EncoderState) (e : VideoEncoderBase) :
    EncodeOutcome × VideoEncoderBase :=
  let (need, e2) := needKeyframe e
  (encodeOneFrame env st need, e2)

/-! ## Input replay: keyboard (`win_send_input.cpp`) -/

/-- Modelled from the spec: `lt::Scancode` (`scancode.h` is not under
`src/`) is the SDL-derived scancode space the spec calls the "normalized
scancode/key space" with "partial scancode tables"; the numeric values below
follow that table.  A scancode is its number. -/
abbrev Scancode := Nat

def SCANCODE_A : Scancode := 4
def SCANCODE_Z : Scancode := 29
def SCANCODE_1 : Scancode := 30
def SCANCODE_0 : Scancode := 39
def SCANCODE_RETURN : Scancode := 40
def SCANCODE_ESCAPE : Scancode := 41
def SCANCODE_BACKSPACE : Scancode := 42
def SCANCODE_TAB : Scancode := 43
def SCANCODE_SPACE : Scancode := 44
def SCANCODE_MINUS : Scancode := 45
def SCANCODE_EQUALS : Scancode := 46
def SCANCODE_LEFTBRACKET : Scancode := 47
def SCANCODE_RIGHTBRACKET : Scancode := 48
def SCANCODE_BACKSLASH : Scancode := 49
def SCANCODE_NONUSHASH : Scancode := 50
def SCANCODE_SEMICOLON : Scancode := 51
def SCANCODE_APOSTROPHE : Scancode := 52
def SCANCODE_GRAVE : Scancode := 53
def SCANCODE_COMMA : Scancode := 54
def SCANCODE_PERIOD : Scancode := 55
def SCANCODE_SLASH : Scancode := 56
def SCANCODE_CAPSLOCK : Scancode := 57
def SCANCODE_F1 : Scancode := 58
def SCANCODE_F12 : Scancode := 69
def SCANCODE_PRINTSCREEN : Scancode := 70
def SCANCODE_SCROLLLOCK : Scancode := 71
def SCANCODE_PAUSE : Scancode := 72
def SCANCODE_INSERT : Scancode := 73
def SCANCODE_HOME : Scancode := 74
def SCANCODE_PAGEUP : Scancode := 75
def SCANCODE_DELETE : Scancode := 76
def SCANCODE_END : Scancode := 77
def SCANCODE_PAGEDOWN : Scancode := 78
def SCANCODE_RIGHT : Scancode := 79
def SCANCODE_LEFT : Scancode := 80
def SCANCODE_DOWN : Scancode := 81
def SCANCODE_UP : Scancode := 82
def SCANCODE_NUMLOCKCLEAR : Scancode := 83
def SCANCODE_KP_DIVIDE : Scancode := 84
def SCANCODE_KP_MULTIPLY : Scancode := 85
def SCANCODE_KP_MINUS : Scancode := 86
def SCANCODE_KP_PLUS : Scancode := 87
def SCANCODE_KP_ENTER : Scancode := 88
def SCANCODE_KP_1 : Scancode := 89
def SCANCODE_KP_9 : Scancode := 97
def SCANCODE_KP_0 : Scancode := 98
def SCANCODE_KP_PERIOD : Scancode := 99
def SCANCODE_APPLICATION : Scancode := 101
def SCANCODE_KP_DECIMAL : Scancode := 220
def SCANCODE_LCTRL : Scancode := 224
def SCANCODE_LSHIFT : Scancode := 225
def SCANCODE_LALT : Scancode := 226
def SCANCODE_LGUI : Scancode := 227
def SCANCODE_RCTRL : Scancode := 228
def SCANCODE_RSHIFT : Scancode := 229
def SCANCODE_RALT : Scancode := 230
def SCANCODE_RGUI : Scancode := 231

/-- The tuple returned by `scancode_to_winkey`
(win_send_input.cpp:16-18): `{win_key, use_scancode, extented, valid}` (the
field spelling follows the source comment). -/
structure WinKeyResult where
  win_key : Nat
  use_scancode : Bool
  extented : Bool
  valid : Bool
deriving DecidableEq

/-- Shallow embedding of `scancode_to_winkey` (win_send_input.cpp:17-138).
Windows virtual-key codes appear as their numeric values with the `VK_`
names from `winuser.h` in comments; character constants of the source are
their ASCII codes (`A` = 65, `1` = 49, `0` = 48). -/
def scancode_to_winkey (sc : Scancode) : WinKeyResult :=
  if SCANCODE_A ≤ sc ∧ sc ≤ SCANCODE_Z then
    { win_key := 65 + sc - SCANCODE_A, use_scancode := true, extented := false, valid := true }
  else if SCANCODE_1 ≤ sc ∧ sc < SCANCODE_0 then
    { win_key := 49 + sc - SCANCODE_1, use_scancode := true, extented := false, valid := true }
  else if sc = SCANCODE_0 then
    { win_key := 48, use_scancode := true, extented := false, valid := true }
  else if SCANCODE_F1 ≤ sc ∧ sc ≤ SCANCODE_F12 then
    -- VK_F1 = 112
    { win_key := 112 + sc - SCANCODE_F1, use_scancode := true, extented := false, valid := true }
  else if SCANCODE_KP_1 ≤ sc ∧ sc ≤ SCANCODE_KP_9 then
    -- VK_NUMPAD1 = 97
    { win_key := 97 + sc - SCANCODE_KP_1, use_scancode := true, extented := false, valid := true }
  else if sc = SCANCODE_KP_PERIOD then
    { win_key := 110, use_scancode := true, extented := false, valid := true } -- VK_DECIMAL
  else if sc = SCANCODE_RETURN then
    { win_key := 13, use_scancode := true, extented := false, valid := true } -- VK_RETURN
  else if sc = SCANCODE_ESCAPE then
    { win_key := 27, use_scancode := true, extented := false, valid := true } -- VK_ESCAPE
  else if sc = SCANCODE_BACKSPACE then
    { win_key := 8, use_scancode := true, extented := false, valid := true } -- VK_BACK
  else if sc = SCANCODE_TAB then
    { win_key := 9, use_scancode := true, extented := false, valid := true } -- VK_TAB
  else if sc = SCANCODE_SPACE then
    { win_key := 32, use_scancode := true, extented := false, valid := true } -- VK_SPACE
  else if sc = SCANCODE_MINUS then
    { win_key := 189, use_scancode := true, extented := false, valid := true } -- VK_OEM_MINUS
  else if sc = SCANCODE_EQUALS then
    { win_key := 187, use_scancode := true, extented := false, valid := true } -- VK_OEM_PLUS
  else if sc = SCANCODE_LEFTBRACKET then
    { win_key := 219, use_scancode := true, extented := false, valid := true } -- VK_OEM_4
  else if sc = SCANCODE_RIGHTBRACKET then
    { win_key := 221, use_scancode := true, extented := false, valid := true } -- VK_OEM_6
  else if sc = SCANCODE_BACKSLASH ∨ sc = SCANCODE_NONUSHASH then
    { win_key := 220, use_scancode := true, extented := false, valid := true } -- VK_OEM_5
  else if sc = SCANCODE_SEMICOLON then
    { win_key := 186, use_scancode := true, extented := false, valid := true } -- VK_OEM_1
  else if sc = SCANCODE_APOSTROPHE then
    { win_key := 222, use_scancode := true, extented := false, valid := true } -- VK_OEM_7
  else if sc = SCANCODE_GRAVE then
    { win_key := 192, use_scancode := true, extented := false, valid := true } -- VK_OEM_3
  else if sc = SCANCODE_COMMA then
    { win_key := 188, use_scancode := true, extented := false, valid := true } -- VK_OEM_COMMA
  else if sc = SCANCODE_PERIOD then
    { win_key := 190, use_scancode := true, extented := false, valid := true } -- VK_OEM_PERIOD
  else if sc = SCANCODE_SLASH then
    { win_key := 191, use_scancode := true, extented := false, valid := true } -- VK_OEM_2
  else if sc = SCANCODE_CAPSLOCK then
    { win_key := 20, use_scancode := true, extented := false, valid := true } -- VK_CAPITAL
  else if sc = SCANCODE_PRINTSCREEN then
    { win_key := 44, use_scancode := true, extented := false, valid := true } -- VK_SNAPSHOT
  else if sc = SCANCODE_SCROLLLOCK then
    { win_key := 145, use_scancode := true, extented := false, valid := true } -- VK_SCROLL
  else if sc = SCANCODE_PAUSE then
    { win_key := 19, use_scancode := false, extented := false, valid := true } -- VK_PAUSE
  else if sc = SCANCODE_INSERT then
    { win_key := 45, use_scancode := true, extented := true, valid := true } -- VK_INSERT
  else if sc = SCANCODE_HOME then
    { win_key := 36, use_scancode := true, extented := true, valid := true } -- VK_HOME
  else if sc = SCANCODE_PAGEUP then
    { win_key := 33, use_scancode := true, extented := true, valid := true } -- VK_PRIOR
  else if sc = SCANCODE_DELETE then
    { win_key := 46, use_scancode := true, extented := true, valid := true } -- VK_DELETE
  else if sc = SCANCODE_END then
    { win_key := 35, use_scancode := true, extented := true, valid := true } -- VK_END
  else if sc = SCANCODE_PAGEDOWN then
    { win_key := 34, use_scancode := true, extented := true, valid := true } -- VK_NEXT
  else if sc = SCANCODE_RIGHT then
    { win_key := 39, use_scancode := true, extented := true, valid := true } -- VK_RIGHT
  else if sc = SCANCODE_LEFT then
    { win_key := 37, use_scancode := true, extented := true, valid := true } -- VK_LEFT
  else if sc = SCANCODE_DOWN then
    { win_key := 40, use_scancode := true, extented := true, valid := true } -- VK_DOWN
  else if sc = SCANCODE_UP then
    { win_key := 38, use_scancode := true, extented := true, valid := true } -- VK_UP
  else if sc = SCANCODE_NUMLOCKCLEAR then
    { win_key := 144, use_scancode := true, extented := false, valid := true } -- VK_NUMLOCK
  else if sc = SCANCODE_KP_DIVIDE then
    { win_key := 111, use_scancode := true, extented := true, valid := true } -- VK_DIVIDE
  else if sc = SCANCODE_KP_MULTIPLY then
    { win_key := 106, use_scancode := true, extented := false, valid := true } -- VK_MULTIPLY
  else if sc = SCANCODE_KP_MINUS then
    { win_key := 109, use_scancode := true, extented := false, valid := true } -- VK_SUBTRACT
  else if sc = SCANCODE_KP_PLUS then
    { win_key := 107, use_scancode := true, extented := false, valid := true } -- VK_ADD
  else if sc = SCANCODE_KP_ENTER then
    { win_key := 13, use_scancode := true, extented := true, valid := true } -- VK_RETURN
  else if sc = SCANCODE_KP_0 then
    { win_key := 96, use_scancode := true, extented := false, valid := true } -- VK_NUMPAD0
  else if sc = SCANCODE_KP_DECIMAL then
    { win_key := 110, use_scancode := true, extented := false, valid := true } -- VK_DECIMAL
  else if sc = SCANCODE_LCTRL then
    { win_key := 162, use_scancode := true, extented := false, valid := true } -- VK_LCONTROL
  else if sc = SCANCODE_LSHIFT then
    { win_key := 160, use_scancode := true, extented := false, valid := true } -- VK_LSHIFT
  else if sc = SCANCODE_LALT then
    { win_key := 164, use_scancode := true, extented := false, valid := true } -- VK_LMENU
  else if sc = SCANCODE_LGUI then
    { win_key := 91, use_scancode := true, extented := true, valid := true } -- VK_LWIN
  else if sc = SCANCODE_RCTRL then
    { win_key := 163, use_scancode := true, extented := true, valid := true } -- VK_RCONTROL
  else if sc = SCANCODE_RSHIFT then
    { win_key := 161, use_scancode := true, extented := false, valid := true } -- VK_RSHIFT
  else if sc = SCANCODE_RALT then
    { win_key := 165, use_scancode := true, extented := true, valid := true } -- VK_RMENU
  else if sc = SCANCODE_RGUI then
    { win_key := 92, use_scancode := true, extented := true, valid := true } -- VK_RWIN
  else if sc = SCANCODE_APPLICATION then
    { win_key := 93, use_scancode := true, extented := true, valid := true } -- VK_APPS
  else
    { win_key := 0, use_scancode := false, extented := false, valid := false }

/-- One synthetic keyboard `INPUT` as filled by
`Win32SendInput::onKeyboardEvent`: the virtual key, whether
`KEYEVENTF_SCANCODE` is set (with `wScan` looked up via `MapVirtualKeyW`),
the `KEYEVENTF_KEYUP` bit and the `KEYEVENTF_EXTENDEDKEY` bit. -/
structure KeyboardInput where
  wVk : Nat
  scancode_flag : Bool
  keyup : Bool
  extended : Bool
deriving DecidableEq

/-- Shallow embedding of `Win32SendInput::onKeyboardEvent`
(win_send_input.cpp:144-164).  The returned list is the batch of synthetic
inputs passed to `SendInput`: empty when the table lookup is invalid
(the handler returns early), otherwise exactly the single filled event. -/
def onKeyboardEvent (key : Nat) (down : Bool) : List KeyboardInput :=
  let wk := scancode_to_winkey key
  if !wk.valid then []
  else
    [{ wVk := wk.win_key, scancode_flag := wk.use_scancode, keyup := !down,
       extended := wk.extented }]

/-! ## Input replay: mouse (`win_send_input.cpp`) -/

def MOUSEEVENTF_MOVE : Nat := 1
def MOUSEEVENTF_LEFTDOWN : Nat := 2
def MOUSEEVENTF_LEFTUP : Nat := 4
def MOUSEEVENTF_RIGHTDOWN : Nat := 8
def MOUSEEVENTF_RIGHTUP : Nat := 16
def MOUSEEVENTF_MIDDLEDOWN : Nat := 32
def MOUSEEVENTF_MIDDLEUP : Nat := 64
def MOUSEEVENTF_XDOWN : Nat := 128
def MOUSEEVENTF_XUP : Nat := 256
def MOUSEEVENTF_WHEEL : Nat := 2048
def MOUSEEVENTF_ABSOLUTE : Nat := 32768
def XBUTTON1 : Int := 1
def XBUTTON2 : Int := 2

/-- `ltproto::peer2peer::MouseEvent_KeyFlag` (the button transition carried
by a mouse event); `other` covers the default branch of the switch. -/
inductive MouseKeyFlag where
  | LeftDown
  | LeftUp
  | RightDown
  | RightUp
  | MidDown
  | MidUp
  | X1Down
  | X1Up
  | X2Down
  | X2Up
  | other (v : Nat)
deriving DecidableEq

/-- `ltproto::peer2peer::MouseEvent` as read by
`Win32SendInput::onMouseEvent`: each proto field is `none` when its
`has_...()` test is false; a missing field reads as its default (`0`).  The
normalized position is a rational, standing for the exact value of the
float32 coordinate. -/
structure MouseEventMsg where
  key_falg : Option MouseKeyFlag
  x : Option ℚ
  y : Option ℚ
  delta_x : Option Int
  delta_y : Option Int
  delta_z : Option Int
deriving DecidableEq

/-- The mouse `INPUT` filled by `Win32SendInput::onMouseEvent` (`dx`, `dy`,
`mouseData` and the `dwFlags` bitmask). -/
structure MouseInput where
  dx : Int
  dy : Int
  mouseData : Int
  dwFlags : Nat
deriving DecidableEq

/-- `static_cast<LONG>` of the product `65535.0f * x`: truncation toward
zero; the float product itself is modelled as the exact rational product. -/
def truncToLong (q : ℚ) : Int :=
  if q < 0 then -Int.floor (-q) else Int.floor q

/-- Shallow embedding of `Win32SendInput::onMouseEvent`
(win_send_input.cpp:170-238).  `absolute_mouse` is the session-wide
`isAbsoluteMouse()` mode.  Note that the wheel branch assigns `dwFlags`
with `=` (not `|=`), overwriting every previously set flag. -/
def onMouseEvent (absolute_mouse : Bool) (m : MouseEventMsg) : MouseInput :=
  let i0 : MouseInput := { dx := 0, dy := 0, mouseData := 0, dwFlags := 0 }
  let i1 :=
    match m.key_falg with
    | some MouseKeyFlag.LeftDown => { i0 with dwFlags := i0.dwFlags ||| MOUSEEVENTF_LEFTDOWN }
    | some MouseKeyFlag.LeftUp => { i0 with dwFlags := i0.dwFlags ||| MOUSEEVENTF_LEFTUP }
    | some MouseKeyFlag.RightDown => { i0 with dwFlags := i0.dwFlags ||| MOUSEEVENTF_RIGHTDOWN }
    | some MouseKeyFlag.RightUp => { i0 with dwFlags := i0.dwFlags ||| MOUSEEVENTF_RIGHTUP }
    | some MouseKeyFlag.MidDown => { i0 with dwFlags := i0.dwFlags ||| MOUSEEVENTF_MIDDLEDOWN }
    | some MouseKeyFlag.MidUp => { i0 with dwFlags := i0.dwFlags ||| MOUSEEVENTF_MIDDLEUP }
    | some MouseKeyFlag.X1Down =>
        { i0 with mouseData := XBUTTON1, dwFlags := i0.dwFlags ||| MOUSEEVENTF_XDOWN }
    | some MouseKeyFlag.X1Up =>
        { i0 with mouseData := XBUTTON1, dwFlags := i0.dwFlags ||| MOUSEEVENTF_XUP }
    | some MouseKeyFlag.X2Down =>
        { i0 with mouseData := XBUTTON2, dwFlags := i0.dwFlags ||| MOUSEEVENTF_XDOWN }
    | some MouseKeyFlag.X2Up =>
        { i0 with mouseData := XBUTTON2, dwFlags := i0.dwFlags ||| MOUSEEVENTF_XUP }
    | some (MouseKeyFlag.other _) => i0
    | none => i0
  let i2 :=
    if absolute_mouse then
      if m.x.isSome || m.y.isSome then
        { i1 with
            dx := truncToLong (65535 * m.x.getD 0)
            dy := truncToLong (65535 * m.y.getD 0)
            dwFlags := i1.dwFlags ||| (MOUSEEVENTF_ABSOLUTE ||| MOUSEEVENTF_MOVE) }
      else i1
    else
      if m.delta_x.isSome || m.delta_y.isSome then
        { i1 with
            dx := m.delta_x.getD 0
            dy := m.delta_y.getD 0
            dwFlags := i1.dwFlags ||| MOUSEEVENTF_MOVE }
      else i1
  if m.delta_z.isSome then
    { i2 with mouseData := m.delta_z.getD 0, dwFlags := MOUSEEVENTF_WHEEL }
  else i2

/-! ## Display output description (`ltlib`, `src/unnamed/part_002`) -/

/-- The `DEVMODE` fields read by `ltlib::getDisplayOutputDesc`. -/
structure DevMode where
  dmPelsWidth : Nat
  dmPelsHeight : Nat
  dmDisplayFrequency : Nat
deriving DecidableEq

/-- Behaviour of the Windows display queries as observed by
`ltlib::getDisplayOutputDesc`: the result of
`EnumDisplaySettings(NULL, ENUM_CURRENT_SETTINGS, ...)` (`none` for a
failing call) and the `GetDeviceCaps` screen metrics used by
`getScreenWidth`/`getScreenHeight`. -/
structure WinDisplayEnv where
  enum_current_settings : Option DevMode
  desktop_horz_res : Nat
  desktop_vert_res : Nat
deriving DecidableEq

/-- `ltlib::DisplayOutputDesc{width, height, frequency}`. -/
structure DisplayOutputDesc where
  width : Nat
  height : Nat
  frequency : Nat
deriving DecidableEq

/-- Shallow embedding of `ltlib::getScreenWidth`
(src/unnamed/part_002:226-231). -/
def getScreenWidth (env : WinDisplayEnv) : Nat :=
  env.desktop_horz_res

/-- Shallow embedding of `ltlib::getScreenHeight`
(src/unnamed/part_002:233-238). -/
def getScreenHeight (env : WinDisplayEnv) : Nat :=
  env.desktop_vert_res

/-- Shallow embedding of the Windows `ltlib::getDisplayOutputDesc`
(src/unnamed/part_002:240-255). -/
def getDisplayOutputDesc (env : WinDisplayEnv) : DisplayOutputDesc :=
  match env.enum_current_settings with
  | some dm =>
      { width := dm.dmPelsWidth
        height := dm.dmPelsHeight
        frequency := if dm.dmDisplayFrequency ≠ 0 then dm.dmDisplayFrequency else 60 }
  | none =>
      { width := getScreenWidth env, height := getScreenHeight env, frequency := 60 }

/-! ## Sample states for concrete evaluation -/

/-- A concrete live-encoder state (1080p60 H264 CBR session). -/
def sampleEncoderState : EncoderState :=
  { width_ := 1920
    height_ := 1080
    codec_type_ := VideoCodecType.H264
    buffer_format_ := NvBufferFormat.ARGB
    init_params_ :=
      { encodeWidth := 1920, encodeHeight := 1080, darWidth := 1920, darHeight := 1080,
        maxEncodeWidth := 1920, maxEncodeHeight := 1080, frameRateNum := 60, frameRateDen := 1,
        enablePTD := true, enableEncodeAsync := false }
    encode_config_ :=
      { rcParams :=
          { rateControlMode := 0, averageBitRate := 8000000, maxBitRate := 8400000,
            minQP := { qpInterP := 10, qpInterB := 10, qpIntra := 10 }, enableMinQP := true,
            maxQP := { qpInterP := 40, qpInterB := 40, qpIntra := 40 }, enableMaxQP := true,
            vbvBufferSize := 0, vbvInitialDelay := 0,
            constQP := { qpInterP := 28, qpInterB := 31, qpIntra := 25 } }
        gopLength := 0
        frameIntervalP := 1 }
    nvencoder_ := 1 }

/-- A concrete NVENC behaviour in which every API call succeeds and the
encoder reports an IDR picture. -/
def sampleEncodeEnv : EncodeEnv :=
  { register_status := 0, map_status := 0, encode_status := 0, lock_status := 0,
    bitstream := [1, 2, 3], unlock_status := 0, unmap_status := 0, unregister_status := 0,
    pic_type := NvPicType.IDR }

/-! ## Claim C1 -/

/-- C1 counterexample: no reconfigure request ever changes the stored QP
bounds — `NvD3d11EncoderImpl::reconfigure` only touches the rate-control
bitrates and the frame rate, so the claim that it "updates the encoder's
bitrate, fps and QP bounds" is false in its QP part. -/
theorem c1_counterexample_qp_never_updated : ¬ reconfigureUpdatesQP := by
  rintro ⟨mulMax, params, st, h⟩
  rcases params with ⟨b, f⟩
  cases b <;> cases f <;> simp [reconfigure] at h

/-- C1 (amended): for every reconfigure request delivered to a live
`NvD3d11Encoder`, `reconfigure` updates the stored bitrate (average and
maximum) and fps in place on the live encoder without recreating the NVENC
session; the stored QP bounds and geometry are never modified, and the
operation reports no failure (it returns `void`; resolution is not part of a
reconfigure request). -/
theorem c1_reconfigure_updates_bitrate_fps_in_place (mulMax : Nat → Nat)
    (params : ReconfigureParams) (st : EncoderState) :
    (∀ b, params.bitrate_bps = some b →
      (reconfigure mulMax params st).1.encode_config_.rcParams.averageBitRate = b ∧
        (reconfigure mulMax params st).1.encode_config_.rcParams.maxBitRate = mulMax b) ∧
    (∀ f, params.fps = some f →
      (reconfigure mulMax params st).1.init_params_.frameRateNum = f) ∧
    (reconfigure mulMax params st).1.encode_config_.rcParams.minQP =
      st.encode_config_.rcParams.minQP ∧
    (reconfigure mulMax params st).1.encode_config_.rcParams.maxQP =
      st.encode_config_.rcParams.maxQP ∧
    (reconfigure mulMax params st).1.nvencoder_ = st.nvencoder_ ∧
    (reconfigure mulMax params st).1.width_ = st.width_ ∧
    (reconfigure mulMax params st).1.height_ = st.height_ := by
  rcases params with ⟨b, f⟩
  cases b <;> cases f <;> simp [reconfigure]

/-- C1 witness: a request for 4 Mbps at 60 fps on the sample 8 Mbps session
lands in the stored configuration, with QP bounds and the session handle
untouched. -/
theorem c1_witness :
    (reconfigure (fun b => b * 105 / 100)
        { bitrate_bps := some 4000000, fps := some 60 } sampleEncoderState).1.encode_config_.rcParams.averageBitRate =
      4000000 ∧
    (reconfigure (fun b => b * 105 / 100)
        { bitrate_bps := some 4000000, fps := some 60 } sampleEncoderState).1.init_params_.frameRateNum =
      60 ∧
    (reconfigure (fun b => b * 105 / 100)
        { bitrate_bps := some 4000000, fps := some 60 } sampleEncoderState).1.encode_config_.rcParams.minQP =
      sampleEncoderState.encode_config_.rcParams.minQP ∧
    (reconfigure (fun b => b * 105 / 100)
        { bitrate_bps := some 4000000, fps := some 60 } sampleEncoderState).1.nvencoder_ =
      sampleEncoderState.nvencoder_ :=
  ⟨((c1_reconfigure_updates_bitrate_fps_in_place (fun b => b * 105 / 100)
      { bitrate_bps := some 4000000, fps := some 60 } sampleEncoderState).1 4000000 rfl).1,
    (c1_reconfigure_updates_bitrate_fps_in_place (fun b => b * 105 / 100)
      { bitrate_bps := some 4000000, fps := some 60 } sampleEncoderState).2.1 60 rfl,
    (c1_reconfigure_updates_bitrate_fps_in_place (fun b => b * 105 / 100)
      { bitrate_bps := some 4000000, fps := some 60 } sampleEncoderState).2.2.1,
    (c1_reconfigure_updates_bitrate_fps_in_place (fun b => b * 105 / 100)
      { bitrate_bps := some 4000000, fps := some 60 } sampleEncoderState).2.2.2.2.1⟩

/-! ## Claim C9 -/

/-- C9: a reconfigure request with neither a bitrate nor an fps value makes
`NvD3d11EncoderImpl::reconfigure` return without invoking
`nvEncReconfigureEncoder` and without changing any field of the stored
state. -/
theorem c9_empty_reconfigure_is_noop (mulMax : Nat → Nat) (st : EncoderState) :
    reconfigure mulMax { bitrate_bps := none, fps := none } st = (st, false) := by
  simp [reconfigure]

/-! ## Claim C2 -/

/-- The last applied version never decreases across one delivered message. -/
theorem lastVersion_le_apply (mulMax : Nat → Nat) (st : PipelineState) (m : ReconfigureMsg) :
    st.lastVersion ≤ (applyReconfigureMsg mulMax st m).lastVersion := by
  unfold applyReconfigureMsg
  split
  · exact Nat.le_refl _
  · exact Nat.le_of_not_lt (by assumption)

/-- C2: a Reconfigure message whose version counter is lower than the last
applied version is never applied (the pipeline state is untouched), and the
last applied version is monotonically non-decreasing, both across a single
delivery and across any sequence of deliveries. -/
theorem c2_stale_reconfigure_ignored_version_monotone (mulMax : Nat → Nat)
    (st : PipelineState) (m : ReconfigureMsg) (msgs : List ReconfigureMsg) :
    (m.version < st.lastVersion → applyReconfigureMsg mulMax st m = st) ∧
    st.lastVersion ≤ (applyReconfigureMsg mulMax st m).lastVersion ∧
    st.lastVersion ≤ (runReconfigureMsgs mulMax st msgs).lastVersion := by
  refine ⟨fun h => by simp [applyReconfigureMsg, h], lastVersion_le_apply mulMax st m, ?_⟩
  induction msgs generalizing st with
  | nil => exact Nat.le_refl _
  | cons hd tl ih =>
      exact Nat.le_trans (lastVersion_le_apply mulMax st hd)
        (ih (applyReconfigureMsg mulMax st hd))

/-- C2 witness: on a pipeline whose last applied version is 5, a stale
message with version 3 is ignored, and delivering a fresh version-7 message
does not decrease the version. -/
theorem c2_witness :
    applyReconfigureMsg (fun b => b) { lastVersion := 5, enc := sampleEncoderState }
        { version := 3, params := { bitrate_bps := none, fps := none } } =
      { lastVersion := 5, enc := sampleEncoderState } ∧
    (5 : Nat) ≤
      (applyReconfigureMsg (fun b => b) { lastVersion := 5, enc := sampleEncoderState }
          { version := 7, params := { bitrate_bps := some 2000000, fps := none } }).lastVersion :=
  ⟨(c2_stale_reconfigure_ignored_version_monotone (fun b => b)
      { lastVersion := 5, enc := sampleEncoderState }
      { version := 3, params := { bitrate_bps := none, fps := none } } []).1 (by decide),
    (c2_stale_reconfigure_ignored_version_monotone (fun b => b)
      { lastVersion := 5, enc := sampleEncoderState }
      { version := 7, params := { bitrate_bps := some 2000000, fps := none } } []).2.1⟩

/-! ## Claim C3 -/

/-- C3: `stop()` from any session state transitions the session to `Closed`
and releases the pipelines and the transport channel; `stop()` is idempotent;
and once stopped, the coordinator emits no further status callbacks to the UI
layer on any subsequent event. -/
theorem c3_stop_closed_idempotent_silent (s : Session) (e : SessionEvent) :
    (stop s).state = SessionState.Closed ∧
    (stop s).pipelinesAlive = false ∧
    (stop s).transportAlive = false ∧
    stop (stop s) = stop s ∧
    sessionStep (stop s) e = (stop s, []) := by
  refine ⟨rfl, rfl, rfl, rfl, ?_⟩
  simp [sessionStep, stop]

/-! ## Claim C4 -/

/-- C4: evaluation of `ServiceManager::onServiceStatus` at a non-`Success`
status code.  The claim (and the spec) require a non-`Up` status to be
surfaced; the code emits exactly one callback but passes `ServiceStatus::Up`
in the non-`Success` branch as well — both arms of its if/else are
identical, while the not-ok value `Down` does exist and is emitted by
`onPipeDisconnected`. -/
theorem c4_nonsuccess_status_still_reported_up :
    onServiceStatus (LtErrorCode.other 1) = [ServiceStatus.Up] ∧
    onServiceStatus LtErrorCode.Success = [ServiceStatus.Up] ∧
    onPipeDisconnected = [ServiceStatus.Down] := by
  decide

/-! ## Claim C5 -/

/-- C5: after `requestKeyframe()`, the next `encodeFrame` call submits the
captured frame to the hardware encoder with the force-IDR flag (and the
SPS/PPS output flag) set whenever the input frame could be registered and
mapped; and whenever a frame is returned, its `is_keyframe` flag is true
exactly when `nvEncGetEncodeStats` reports the picture type as I or IDR. -/
theorem c5_request_keyframe_forces_idr (env : EncodeEnv) (st : EncoderState)
    (e : VideoEncoderBase) :
    (env.register_status = 0 → env.map_status = 0 →
      (encodeFrame env st (requestKeyframe e)).1.submitted =
        some { encodePicFlags := { forceIDR := true, outputSPSPPS := true },
               inputWidth := st.width_, inputHeight := st.height_ }) ∧
    (∀ f, (encodeFrame env st (requestKeyframe e)).1.result = some f →
      (f.is_keyframe = true ↔
        (env.pic_type = NvPicType.I ∨ env.pic_type = NvPicType.IDR))) := by
  constructor
  · intro h1 h2
    simp [encodeFrame, needKeyframe, requestKeyframe, encodeOneFrame, h1, h2]
    repeat' split
    all_goals rfl
  · intro f hf
    unfold encodeFrame needKeyframe requestKeyframe encodeOneFrame at hf
    simp at hf
    repeat' split at hf
    all_goals simp_all
    subst hf
    simp

/-- C5 witness: with every NVENC call succeeding and the encoder reporting
an IDR picture, the frame after `requestKeyframe()` is submitted with
force-IDR set and comes back flagged as a keyframe. -/
theorem c5_witness :
    (encodeFrame sampleEncodeEnv sampleEncoderState
        (requestKeyframe { request_keyframe_ := false })).1.submitted =
      some { encodePicFlags := { forceIDR := true, outputSPSPPS := true },
             inputWidth := 1920, inputHeight := 1080 } ∧
    ((true : Bool) = true ↔
      (sampleEncodeEnv.pic_type = NvPicType.I ∨ sampleEncodeEnv.pic_type = NvPicType.IDR)) :=
  ⟨(c5_request_keyframe_forces_idr sampleEncodeEnv sampleEncoderState
      { request_keyframe_ := false }).1 rfl rfl,
    by
      have h := (c5_request_keyframe_forces_idr sampleEncodeEnv sampleEncoderState
        { request_keyframe_ := false }).2 { frame := [1, 2, 3], is_keyframe := true } (by decide)
      simpa using h⟩

/-! ## Claim C6 -/

/-- A concrete environment in which every encoder-API call succeeds except
`nvEncCreateBitstreamBuffer`. -/
def c6EnvBitstreamFail : NvInitEnv :=
  { lib_loaded := true, has_get_max_version := true, get_max_version_status := 0,
    machine_version := 0, has_create_instance := true, create_instance_status := 0,
    has_open_session_fn := true, open_session_status := 0, initialize_status := 0,
    create_bitstream_status := 2 }

/-- C6 counterexample: when `nvEncCreateBitstreamBuffer` fails (an
encoder-API setup step has failed), `init` still returns success, because
`initBuffers` only logs the failing status — refuting the claim that init
never returns success after any encoder-API setup step has failed. -/
theorem c6_counterexample_bitstream_failure_ignored :
    anyEncoderApiStepFailed c6EnvBitstreamFail = true ∧
    init 0 c6EnvBitstreamFail VideoCodecType.H264 NvBufferFormat.ARGB =
      { ok := true, session_opened := true } := by
  decide

/-- C6 (amended): `init` fails before opening an encode session for every
parameter set combining H264 with a 10-bit buffer format, and returns
failure whenever library loading fails, `nvEncOpenEncodeSessionEx` fails
(in which case no session is opened) or `nvEncInitializeEncoder` fails;
however a failing `nvEncCreateBitstreamBuffer` during `initBuffers` is only
logged and `init` still returns success. -/
theorem c6_init_failure_paths (sdk : Nat) (env : NvInitEnv) (codec : VideoCodecType)
    (fmt : NvBufferFormat) :
    (codec = VideoCodecType.H264 →
      (fmt = NvBufferFormat.YUV420_10BIT ∨ fmt = NvBufferFormat.YUV444_10BIT) →
      init sdk env codec fmt = { ok := false, session_opened := false }) ∧
    (loadNvApi sdk env = false → (init sdk env codec fmt).ok = false) ∧
    (env.open_session_status ≠ 0 →
      (init sdk env codec fmt).ok = false ∧
        (init sdk env codec fmt).session_opened = false) ∧
    (env.initialize_status ≠ 0 → (init sdk env codec fmt).ok = false) ∧
    ((init sdk env codec fmt).ok = true → (init sdk env codec fmt).session_opened = true) := by
  unfold init
  split
  · simp_all [initBuffers]
  · split
    · simp_all
    · split
      · simp_all
      · split
        · simp_all
        · split <;> simp_all [initBuffers]

/-- A concrete environment in which the NVENC library is absent and the
session-opening and initialization calls would fail. -/
def c6EnvAllFail : NvInitEnv :=
  { lib_loaded := false, has_get_max_version := false, get_max_version_status := 1,
    machine_version := 0, has_create_instance := false, create_instance_status := 1,
    has_open_session_fn := false, open_session_status := 1, initialize_status := 1,
    create_bitstream_status := 0 }

/-- C6 witness: at a concrete H264 + 10-bit parameter set in a failing
environment, `init` returns failure without opening a session. -/
theorem c6_witness :
    init 0 c6EnvAllFail VideoCodecType.H264 NvBufferFormat.YUV420_10BIT =
      { ok := false, session_opened := false } ∧
    (init 0 c6EnvAllFail VideoCodecType.H265 NvBufferFormat.NV12).ok = false ∧
    (init 0 c6EnvAllFail VideoCodecType.H265 NvBufferFormat.NV12).session_opened = false :=
  ⟨(c6_init_failure_paths 0 c6EnvAllFail VideoCodecType.H264 NvBufferFormat.YUV420_10BIT).1
      rfl (Or.inl rfl),
    ((c6_init_failure_paths 0 c6EnvAllFail VideoCodecType.H265 NvBufferFormat.NV12).2.2.1
      (by decide)).1,
    ((c6_init_failure_paths 0 c6EnvAllFail VideoCodecType.H265 NvBufferFormat.NV12).2.2.1
      (by decide)).2⟩

/-! ## Claim C7 -/

/-- C7: an incoming keyboard event whose scancode has no entry in the
scancode-to-virtual-key table is dropped — `onKeyboardEvent` injects no
synthetic input; for every mapped scancode, exactly one synthetic key event
carrying the table's virtual key and the event's down/up state is
injected. -/
theorem c7_unmapped_dropped_mapped_injected_once (sc : Nat) (down : Bool) :
    ((scancode_to_winkey sc).valid = false → onKeyboardEvent sc down = []) ∧
    ((scancode_to_winkey sc).valid = true →
      onKeyboardEvent sc down =
        [{ wVk := (scancode_to_winkey sc).win_key
           scancode_flag := (scancode_to_winkey sc).use_scancode
           keyup := !down
           extended := (scancode_to_winkey sc).extented }]) := by
  constructor <;> intro h <;> simp [onKeyboardEvent, h]

/-- C7 witness: scancode 102 (unmapped) is dropped; scancode 4 (the A key,
mapped to virtual key 65) injects exactly one key-up event. -/
theorem c7_witness :
    onKeyboardEvent 102 true = [] ∧
    onKeyboardEvent 4 false =
      [{ wVk := 65, scancode_flag := true, keyup := true, extended := false }] :=
  ⟨(c7_unmapped_dropped_mapped_injected_once 102 true).1 (by decide),
    by
      have h := (c7_unmapped_dropped_mapped_injected_once 4 false).2 (by decide)
      simpa using h⟩

/-! ## Claim C8 -/

/-- Retaining bits: or-ing a mask in and then masking it out again yields
the mask. -/
theorem lor_land_self (a b : Nat) : (a ||| b) &&& b = b := by
  apply Nat.eq_of_testBit_eq
  intro i
  simp [Nat.testBit_land, Nat.testBit_lor]
  cases a.testBit i <;> cases b.testBit i <;> simp

/-- A concrete absolute-mode mouse event carrying both a normalized position
and a wheel delta. -/
def c8MoveWheelEvent : MouseEventMsg :=
  { key_falg := none, x := some (1/2), y := some (1/2), delta_x := none, delta_y := none,
    delta_z := some 120 }

/-- C8 counterexample: for a mouse event that carries a normalized position
(1/2, 1/2) together with a wheel delta, the wheel branch overwrites
`dwFlags` with `=` instead of `|=`, so the injected event has only
`MOUSEEVENTF_WHEEL` set and the absolute-move flags are absent — refuting
the claim for every event carrying a normalized position. -/
theorem c8_counterexample_wheel_overwrites_move_flags :
    (onMouseEvent true c8MoveWheelEvent).dwFlags = MOUSEEVENTF_WHEEL ∧
    (onMouseEvent true c8MoveWheelEvent).dwFlags &&& MOUSEEVENTF_ABSOLUTE = 0 ∧
    (onMouseEvent true c8MoveWheelEvent).dwFlags &&& MOUSEEVENTF_MOVE = 0 := by
  decide

/-- C8 (amended): in absolute mouse mode, for every mouse event carrying a
normalized position and no wheel delta, the injected pointer event has
coordinates 65535·x and 65535·y truncated to integer and both
`MOUSEEVENTF_ABSOLUTE` and `MOUSEEVENTF_MOVE` set; in relative mode (again
without a wheel delta) the raw `delta_x`/`delta_y` are injected unscaled
with `MOUSEEVENTF_MOVE`; an event that also carries a wheel delta has its
flag word overwritten with `MOUSEEVENTF_WHEEL` alone. -/
theorem c8_absolute_scaled_relative_unscaled (absolute_mouse : Bool) (m : MouseEventMsg) :
    (absolute_mouse = true → m.delta_z = none → (m.x.isSome || m.y.isSome) = true →
      (onMouseEvent absolute_mouse m).dx = truncToLong (65535 * m.x.getD 0) ∧
        (onMouseEvent absolute_mouse m).dy = truncToLong (65535 * m.y.getD 0) ∧
        (onMouseEvent absolute_mouse m).dwFlags &&&
            (MOUSEEVENTF_ABSOLUTE ||| MOUSEEVENTF_MOVE) =
          MOUSEEVENTF_ABSOLUTE ||| MOUSEEVENTF_MOVE) ∧
    (absolute_mouse = false → m.delta_z = none →
      (m.delta_x.isSome || m.delta_y.isSome) = true →
      (onMouseEvent absolute_mouse m).dx = m.delta_x.getD 0 ∧
        (onMouseEvent absolute_mouse m).dy = m.delta_y.getD 0 ∧
        (onMouseEvent absolute_mouse m).dwFlags &&& MOUSEEVENTF_MOVE = MOUSEEVENTF_MOVE) ∧
    (m.delta_z.isSome = true →
      (onMouseEvent absolute_mouse m).dwFlags = MOUSEEVENTF_WHEEL) := by
  refine ⟨?_, ?_, ?_⟩
  · intro habs hdz hxy
    simp [onMouseEvent, habs, hdz, hxy, lor_land_self]
  · intro habs hdz hxy
    simp [onMouseEvent, habs, hdz, hxy, lor_land_self]
  · intro hdz
    simp [onMouseEvent, hdz]

/-- C8 witness: an absolute-mode event at (1/2, 1/4) without wheel delta
injects (32767, 16383) with the absolute-move flags, and a relative-mode
event with deltas (-3, 7) injects them unscaled. -/
theorem c8_witness :
    (onMouseEvent true
          { key_falg := none, x := some (1/2), y := some (1/4), delta_x := none,
            delta_y := none, delta_z := none }).dx = 32767 ∧
    (onMouseEvent true
          { key_falg := none, x := some (1/2), y := some (1/4), delta_x := none,
            delta_y := none, delta_z := none }).dwFlags &&&
        (MOUSEEVENTF_ABSOLUTE ||| MOUSEEVENTF_MOVE) =
      MOUSEEVENTF_ABSOLUTE ||| MOUSEEVENTF_MOVE ∧
    (onMouseEvent false
          { key_falg := none, x := none, y := none, delta_x := some (-3),
            delta_y := some 7, delta_z := none }).dx = -3 ∧
    (onMouseEvent false
          { key_falg := none, x := none, y := none, delta_x := some (-3),
            delta_y := some 7, delta_z := none }).dy = 7 := by
  have h1 := (c8_absolute_scaled_relative_unscaled true
    { key_falg := none, x := some (1/2), y := some (1/4), delta_x := none, delta_y := none,
      delta_z := none }).1 rfl rfl (by decide)
  have h2 := (c8_absolute_scaled_relative_unscaled false
    { key_falg := none, x := none, y := none, delta_x := some (-3), delta_y := some 7,
      delta_z := none }).2.1 rfl rfl (by decide)
  refine ⟨?_, h1.2.2, h2.1, h2.2.1⟩
  rw [h1.1]
  norm_num [truncToLong]

/-! ## Claim C10 -/

/-- C10: on Windows, `getDisplayOutputDesc` never returns a refresh
frequency of 0: when display-settings enumeration fails, the result falls
back to the screen metrics with frequency 60, and when enumeration reports
frequency 0 the result's frequency is 60 while width and height come from
the enumerated mode. -/
theorem c10_display_frequency_never_zero (env : WinDisplayEnv) :
    (getDisplayOutputDesc env).frequency ≠ 0 ∧
    (env.enum_current_settings = none →
      getDisplayOutputDesc env =
        { width := getScreenWidth env, height := getScreenHeight env, frequency := 60 }) ∧
    (∀ dm, env.enum_current_settings = some dm → dm.dmDisplayFrequency = 0 →
      (getDisplayOutputDesc env).frequency = 60) ∧
    (∀ dm, env.enum_current_settings = some dm →
      (getDisplayOutputDesc env).width = dm.dmPelsWidth ∧
        (getDisplayOutputDesc env).height = dm.dmPelsHeight) := by
  refine ⟨?_, ?_, ?_, ?_⟩
  · cases h : env.enum_current_settings with
    | none => simp [getDisplayOutputDesc, h]
    | some dm =>
        simp only [getDisplayOutputDesc, h]
        split <;> simp_all
  · intro h
    simp [getDisplayOutputDesc, h]
  · intro dm h hfreq
    simp [getDisplayOutputDesc, h, hfreq]
  · intro dm h
    simp [getDisplayOutputDesc, h]

/-- A display environment where `EnumDisplaySettings` fails and the screen
metrics report 800×600. -/
def c10EnvEnumFail : WinDisplayEnv :=
  { enum_current_settings := none, desktop_horz_res := 800, desktop_vert_res := 600 }

/-- A display environment where `EnumDisplaySettings` reports a 1920×1080
mode with frequency 0. -/
def c10EnvZeroFreq : WinDisplayEnv :=
  { enum_current_settings :=
      some { dmPelsWidth := 1920, dmPelsHeight := 1080, dmDisplayFrequency := 0 }
    desktop_horz_res := 800
    desktop_vert_res := 600 }

/-- C10 witness: with failing enumeration the description is the
800×600 screen metric at 60 Hz, and an enumerated 1920×1080 mode reporting
frequency 0 yields frequency 60. -/
theorem c10_witness :
    getDisplayOutputDesc c10EnvEnumFail = { width := 800, height := 600, frequency := 60 } ∧
    (getDisplayOutputDesc c10EnvZeroFreq).frequency = 60 :=
  ⟨(c10_display_frequency_never_zero c10EnvEnumFail).2.1 rfl,
    (c10_display_frequency_never_zero c10EnvZeroFreq).2.2.1
      { dmPelsWidth := 1920, dmPelsHeight := 1080, dmDisplayFrequency := 0 } rfl rfl⟩

end Lanthing
